import Mathlib

/-!
Verification of the EOS connect energy-management daemon against its
natural-language specification.

The Lean definitions below are shallow embeddings of the Python source:

* calculate_next_run_time   from src/interfaces/eos_interface.py
* handle_mode_override      from src/eos_connect.py
* the outer optimization loop exception handling from src/eos_connect.py
* examine_response_to_control_data from src/interfaces/eos_interface.py
* the runtime ring buffer   from src/interfaces/optimization_backends
* create_feedin_prices      from src/interfaces/price_interface.py
* the EOS to EVopt request and response translations from
  src/interfaces/optimization_backends/optimization_backend_evopt.py

Python floats are modelled as rationals, datetimes as rational seconds
since local midnight, fallible list indexing as Option or Except, and
wall-clock reads (datetime.now) as explicit parameters.
-/

namespace EosConnect

/-! ## Section 1: next run time calculation

Shallow embedding of EosInterface.calculate_next_run_time
(src/interfaces/eos_interface.py, lines 538 to 613).

A datetime is modelled as rational seconds since local midnight; the
function only inspects minute/second structure, so this is faithful for
times that stay inside one day.  The datetime.replace(second=0,
microsecond=0) call is the floor to a whole minute; timedelta arithmetic
is plain addition of seconds.
-/

/-- Model of a Python datetime within one day: rational seconds since
local midnight, floored to whole minutes by 60 * (floor of t/60). -/
def floorToMinute (t : ℚ) : ℤ := ⌊t / 60⌋

/-- EosInterface.calculate_next_run_time.  All three arguments are in
seconds; the result is the next wake time in seconds since midnight.
The two Python branches for minutes_past_quarter == 0 both add 15
minutes, so they are collapsed into one branch here. -/
def calculate_next_run_time (current_time avg_runtime update_interval : ℚ) : ℚ :=
  let min_gap_seconds : ℚ := max ((update_interval + avg_runtime) * (7/10)) 30
  let minute_index : ℤ := floorToMinute current_time
  let next_quarter0 : ℚ := 60 * minute_index
  let current_minute : ℤ := minute_index % 60
  let minutes_past_quarter : ℤ := current_minute % 15
  let minutes_to_add : ℤ := if minutes_past_quarter = 0 then 15 else 15 - minutes_past_quarter
  let next_quarter1 : ℚ := next_quarter0 + 60 * (minutes_to_add : ℚ)
  let quarter_aligned_start0 : ℚ := next_quarter1 - avg_runtime
  let next_quarter2 : ℚ :=
    if quarter_aligned_start0 ≤ current_time then next_quarter1 + 900 else next_quarter1
  let quarter_aligned_start1 : ℚ := next_quarter2 - avg_runtime
  let time_until_quarter_start : ℚ := quarter_aligned_start1 - current_time
  if 2 * update_interval ≤ time_until_quarter_start ∧
      min_gap_seconds ≤ time_until_quarter_start then
    current_time + update_interval
  else
    let absolute_min_seconds : ℚ := max (avg_runtime * (1/2)) 30
    if time_until_quarter_start < absolute_min_seconds then
      next_quarter2 + 900 - avg_runtime
    else
      quarter_aligned_start1

/-! ## Section 2: HTTP mode override handler

Shallow embedding of handle_mode_override (src/eos_connect.py, lines
945 to 1049).  The JSON payload is modelled after parsing: a missing
key or unparsable field raises ValueError/TypeError/KeyError in Python
and yields a 400 response, modelled by the none case.  The duration
string HH:MM is modelled by its two parsed integer components. -/

structure ModeOverridePayload where
  mode : ℤ
  duration_hh : ℤ
  duration_mm : ℤ
  grid_charge_power : ℚ
deriving DecidableEq

/-- handle_mode_override: returns the HTTP status code and the response
tag produced by the handler.  max_grid_charge_rate is the configuration
value config inverter.max_grid_charge_rate in watts. -/
def handle_mode_override (payload : Option ModeOverridePayload)
    (max_grid_charge_rate : ℚ) : ℕ × String :=
  match payload with
  | none => (400, "Invalid payload")
  | some d =>
    let duration : ℤ := d.duration_hh * 60 + d.duration_mm
    if d.mode < -2 ∨ 2 < d.mode then
      (400, "Invalid mode value")
    else if duration ≤ 0 ∧ duration ≤ 12 * 60 then
      (400, "Duration must be greater than 0 and less/ equal than 12 hours")
    else if d.grid_charge_power < 1/2 ∧
        d.grid_charge_power ≤ max_grid_charge_rate / 1000 then
      (400, "Grid charge power must be greater than 0 and less / equal than max grid charge rate")
    else
      (200, "success")

/-! ## Section 3: outer optimization loop exception handling

Shallow embedding of OptimizationScheduler._update_state_loop
(src/eos_connect.py, lines 461 to 478).  The loop body calls
run_optimization inside
  except (requests.exceptions.RequestException, ValueError, KeyError).
The Python exception classes that can realistically escape
run_optimization are modelled as an inductive type; connectionError,
timeout and httpError are subclasses of RequestException, so they are
caught; indexError (a LookupError but not a KeyError), typeError and
osError are not matched by the except clause. -/

inductive PyExc
  | requestException
  | connectionError
  | timeout
  | httpError
  | valueError
  | keyError
  | indexError
  | typeError
  | osError
deriving DecidableEq, Fintype

/-- Which exception classes the except clause of _update_state_loop
matches, following the Python class hierarchy. -/
def loopCatches : PyExc → Bool
  | .requestException => true
  | .connectionError => true
  | .timeout => true
  | .httpError => true
  | .valueError => true
  | .keyError => true
  | .indexError => false
  | .typeError => false
  | .osError => false

/-- One run of the loop over a list of iteration outcomes: none is a
normal return of run_optimization, some e is an exception e raised in
the body.  The loop swallows caught exceptions and continues; an
uncaught exception propagates out of the loop frame.  On success the
number of completed iterations is returned. -/
def loopRun : List (Option PyExc) → Except PyExc ℕ
  | [] => .ok 0
  | o :: rest =>
    match o with
    | none => (loopRun rest).map (· + 1)
    | some e => if loopCatches e then (loopRun rest).map (· + 1) else .error e

/-! ## Section 4: response interpreter

Shallow embedding of EosInterface.examine_response_to_control_data
(src/interfaces/eos_interface.py, lines 240 to 355).  The optimizer
response is modelled by the fields the function reads; the mutable
interface state by EosIfState.  List indexing arr[i] is Python
indexing: an out-of-range index raises IndexError, modelled by a none
result for the whole call (the theorems below only concern completed
calls). -/

structure ControlEntry where
  ac_charge_demand : ℚ
  dc_charge_demand : ℚ
  discharge_allowed : ℚ
  error : ℤ
  hour : ℤ
deriving DecidableEq

structure ExamineResponse where
  ac_charge : Option (List ℚ)
  dc_charge : Option (List ℚ)
  discharge_allowed : Option (List ℚ)
  start_solution : Option (List ℚ)
  washingstart : Option ℤ
deriving DecidableEq

structure EosIfState where
  last_control_data0 : ControlEntry
  last_control_data1 : ControlEntry
  last_start_solution : Option (List ℚ)
  home_appliance_released : Bool
  home_appliance_start_hour : Option ℤ
deriving DecidableEq

/-- The constructor state of EosInterface: both control entries zeroed
with error 0 and hour -1.  The Python field discharge_allowed is
initially the boolean False, modelled as 0. -/
def initEosIfState : EosIfState :=
  ⟨⟨0, 0, 0, 0, -1⟩, ⟨0, 0, 0, 0, -1⟩, none, false, none⟩

/-- The ac_charge block: reads arr[h] and arr[nextIdx] into the two
control entries and returns the current-hour value. -/
def acBlock (h nextIdx : ℕ) (arrOpt : Option (List ℚ)) (st : EosIfState) :
    Option (EosIfState × Option ℚ) :=
  match arrOpt with
  | none => some (st, none)
  | some arr =>
    match arr[h]?, arr[nextIdx]? with
    | some v0, some v1 =>
      some ({ st with
                last_control_data0 := { st.last_control_data0 with ac_charge_demand := v0 },
                last_control_data1 := { st.last_control_data1 with ac_charge_demand := v1 } },
            some v0)
    | _, _ => none

/-- The dc_charge block, analogous to acBlock. -/
def dcBlock (h nextIdx : ℕ) (arrOpt : Option (List ℚ)) (st : EosIfState) :
    Option (EosIfState × Option ℚ) :=
  match arrOpt with
  | none => some (st, none)
  | some arr =>
    match arr[h]?, arr[nextIdx]? with
    | some v0, some v1 =>
      some ({ st with
                last_control_data0 := { st.last_control_data0 with dc_charge_demand := v0 },
                last_control_data1 := { st.last_control_data1 with dc_charge_demand := v1 } },
            some v0)
    | _, _ => none

/-- The discharge_allowed block; the returned current-hour value is
coerced with bool(...), true for any non-zero entry. -/
def dischargeBlock (h nextIdx : ℕ) (arrOpt : Option (List ℚ)) (st : EosIfState) :
    Option (EosIfState × Option Bool) :=
  match arrOpt with
  | none => some (st, none)
  | some arr =>
    match arr[h]?, arr[nextIdx]? with
    | some v0, some v1 =>
      some ({ st with
                last_control_data0 := { st.last_control_data0 with discharge_allowed := v0 },
                last_control_data1 := { st.last_control_data1 with discharge_allowed := v1 } },
            some (decide (v0 ≠ 0)))
    | _, _ => none

/-- The start_solution block: stores the solution when present with
length above one, otherwise flags a response error. -/
def startSolutionBlock (ss : Option (List ℚ)) (st : EosIfState) : EosIfState × Bool :=
  match ss with
  | some l => if 1 < l.length then ({ st with last_start_solution := some l }, false)
              else (st, true)
  | none => (st, true)

/-- True exactly when the code path above flags a response error:
start_solution missing or of length at most one. -/
def start_solution_short (ss : Option (List ℚ)) : Bool :=
  match ss with
  | some l => if 1 < l.length then false else true
  | none => true

/-- The unconditional final assignment of error and hour on both
control entries, error being int(response_error). -/
def setErrorHour (st : EosIfState) (err : Bool) (h nextIdx : ℕ) : EosIfState :=
  { st with
      last_control_data0 :=
        { st.last_control_data0 with error := if err then 1 else 0, hour := (h : ℤ) },
      last_control_data1 :=
        { st.last_control_data1 with error := if err then 1 else 0, hour := (nextIdx : ℤ) } }

/-- The washingstart block: records the appliance start hour and
whether it equals the current hour. -/
def washingBlock (w : Option ℤ) (h : ℕ) (st : EosIfState) : EosIfState :=
  match w with
  | some ws =>
    { st with
        home_appliance_start_hour := some ws,
        home_appliance_released := decide (ws = (h : ℤ)) }
  | none => st

/-- EosInterface.examine_response_to_control_data.  h is the current
wall-clock hour (datetime.now(...).hour).  Returns the updated state
and the tuple (ac, dc, discharge, response_error); none models an
IndexError escaping the call. -/
def examine_response_to_control_data (h : ℕ) (resp : ExamineResponse) (st : EosIfState) :
    Option (EosIfState × (Option ℚ × Option ℚ × Option Bool × Bool)) :=
  let nextIdx : ℕ := if h < 23 then h + 1 else 0
  (acBlock h nextIdx resp.ac_charge st).bind fun p1 =>
  (dcBlock h nextIdx resp.dc_charge p1.1).bind fun p2 =>
  (dischargeBlock h nextIdx resp.discharge_allowed p2.1).bind fun p3 =>
  let p4 := startSolutionBlock resp.start_solution p3.1
  let st5 := setErrorHour p4.1 p4.2 h nextIdx
  let st6 := washingBlock resp.washingstart h st5
  some (st6, (p1.2, p2.2, p3.2, p4.2))

/-- Concrete response used against claim C4: start_solution is present
with length 2 but every control array is missing. -/
def respC4 : ExamineResponse := ⟨none, none, none, some [1, 2], none⟩

/-- Concrete well-formed response used for the C4 witness: all three
control arrays are present and long enough for hour 0. -/
def respWitness : ExamineResponse :=
  ⟨some [1, 0], some [0, 1], some [1, 1], some [0, 1, 0], none⟩

/-! ## Section 5: runtime ring buffer

Shallow embedding of the runtime tracking shared verbatim by
EOSBackend.optimize (optimization_backend_eos.py, lines 64 to 74) and
EVOptBackend.optimize (optimization_backend_evopt.py, lines 85 to 95):
a five-slot list of runtimes plus a circular index.  A successful POST
records the elapsed time; raise_for_status precedes the update, so a
timeout, connection error or HTTP error leaves the state untouched and
returns no average. -/

structure RuntimeRing where
  runtimes : List ℚ
  idx : ℕ
deriving DecidableEq

/-- Constructor state: last_optimization_runtimes = [0] * 5 and
last_optimization_runtime_number = 0. -/
def initRing : RuntimeRing := ⟨List.replicate 5 0, 0⟩

inductive OptimizeEvent
  | success (elapsed : ℚ)
  | failure
deriving DecidableEq

/-- One optimize call: on success, an all-zero buffer is seeded with
five copies of the elapsed time, otherwise the slot at the circular
index is overwritten; the index advances mod 5 and the arithmetic mean
over the five slots is returned.  On failure nothing changes and no
average is produced. -/
def optimize_runtime_step (s : RuntimeRing) : OptimizeEvent → RuntimeRing × Option ℚ
  | .success elapsed =>
    let buf := if s.runtimes.all (fun r => r == 0)
               then List.replicate 5 elapsed
               else s.runtimes.set s.idx elapsed
    (⟨buf, (s.idx + 1) % 5⟩, some (buf.sum / 5))
  | .failure => (s, none)

/-- The ring state after a sequence of optimize calls starting from the
constructor state. -/
def optimize_runtime_run (evs : List OptimizeEvent) : RuntimeRing :=
  evs.foldl (fun s ev => (optimize_runtime_step s ev).1) initRing

/-! ## Section 6: feed-in price creation

Shallow embedding of PriceInterface.__create_feedin_prices and the
update_prices flow (src/interfaces/price_interface.py, lines 251 to
347).  The zeroing of feed-in entries is driven by
current_prices_direct, the tax-free price array, while update_prices
stores the retrieved taxed prices in current_prices.  Python
round(x, 9) on floats is modelled by rounding to the nearest multiple
of 10^-9 (the tie-breaking mode is irrelevant to the claims). -/

/-- Model of round(x, 9). -/
def round9 (x : ℚ) : ℚ := (⌊x * 10 ^ 9 + 1 / 2⌋ : ℚ) / 10 ^ 9

structure PriceState where
  negative_price_switch : Bool
  feed_in_tariff_price : ℚ
  current_prices : List ℚ
  current_prices_direct : List ℚ
  current_feedin : List ℚ
deriving DecidableEq

/-- PriceInterface.__create_feedin_prices: one feed-in entry per entry
of current_prices_direct; with the switch on, entries are zeroed where
the direct price is negative, otherwise they are the constant tariff
round(feed_in_tariff_price / 1000, 9). -/
def create_feedin_prices (st : PriceState) : PriceState :=
  let tariff := round9 (st.feed_in_tariff_price / 1000)
  let feedin :=
    if st.negative_price_switch then
      st.current_prices_direct.map (fun price => if price < 0 then 0 else tariff)
    else
      st.current_prices_direct.map (fun _ => tariff)
  { st with current_feedin := feedin }

/-- PriceInterface.update_prices with the retrieval result abstracted:
__retrieve_prices returns the taxed price list and stores the tax-free
list in current_prices_direct; update_prices then rebuilds the feed-in
prices. -/
def update_prices_with (st : PriceState) (retrieved : List ℚ × List ℚ) : PriceState :=
  create_feedin_prices
    { st with current_prices := retrieved.1, current_prices_direct := retrieved.2 }

/-- The price-combination step of __retrieve_prices_from_tibber (lines
633 to 673): each hour contributes total (taxed, into prices) and
energy (tax-free, into prices_direct), both divided by 1000 and
rounded; an absent tomorrow repeats the first 24 entries of today; the
result is sliced at the current hour to the target duration and, when
short, extended from the head. -/
def tibber_price_lists (today tomorrow : List (ℚ × ℚ))
    (current_hour tgt_duration : ℕ) : List ℚ × List ℚ :=
  let prices0 := today.map (fun p => round9 (p.1 / 1000))
  let direct0 := today.map (fun p => round9 (p.2 / 1000))
  let prices1 := if tomorrow = [] then prices0 ++ prices0.take 24
                 else prices0 ++ tomorrow.map (fun p => round9 (p.1 / 1000))
  let direct1 := if tomorrow = [] then direct0 ++ direct0.take 24
                 else direct0 ++ tomorrow.map (fun p => round9 (p.2 / 1000))
  let extended := (prices1.drop current_hour).take tgt_duration
  let extendedD := (direct1.drop current_hour).take tgt_duration
  let extended2 := if extended.length < tgt_duration
                   then extended ++ prices1.take (tgt_duration - extended.length)
                   else extended
  let extendedD2 := if extendedD.length < tgt_duration
                    then extendedD ++ direct1.take (tgt_duration - extendedD.length)
                    else extendedD
  (extended2, extendedD2)

/-- update_prices when the configured source is tibber and the fetch
succeeds with the given per-hour (total, energy) price pairs. -/
def update_prices_tibber (st : PriceState) (today tomorrow : List (ℚ × ℚ))
    (current_hour tgt_duration : ℕ) : PriceState :=
  update_prices_with st (tibber_price_lists today tomorrow current_hour tgt_duration)

/-! ## Section 7: EOS to EVopt request translation

Shallow embedding of EVOptBackend._transform_request_from_eos_to_evopt
(optimization_backend_evopt.py, lines 145 to 277).  The EOS request is
modelled by the fields the function reads; datetime.now is modelled by
the seconds since local midnight (the function reads it as hour,
minute and seconds_since_midnight). -/

structure EmsData where
  pv_prognose_wh : Option (List ℚ)
  strompreis_euro_pro_wh : Option (List ℚ)
  einspeiseverguetung_euro_pro_wh : Option (List ℚ)
  gesamtlast : Option (List ℚ)
deriving DecidableEq

structure PvAkku where
  device_id : Option String
  capacity_wh : Option ℚ
  initial_soc_percentage : Option ℚ
  min_soc_percentage : Option ℚ
  max_soc_percentage : Option ℚ
  max_charge_power_w : Option ℚ
  charging_efficiency : Option ℚ
  discharging_efficiency : Option ℚ
deriving DecidableEq

structure EosRequest where
  ems : Option EmsData
  pv_akku : Option PvAkku
deriving DecidableEq

def defaultEms : EmsData := ⟨none, none, none, none⟩

def defaultPvAkku : PvAkku := ⟨none, none, none, none, none, none, none, none⟩

structure EvoptStrategy where
  charging_strategy : String
  discharging_strategy : String
deriving DecidableEq

structure EvoptGrid where
  p_max_imp : ℚ
  p_max_exp : ℚ
  prc_p_imp_exc : ℚ
deriving DecidableEq

structure EvoptBattery where
  device_id : String
  charge_from_grid : Bool
  discharge_to_grid : Bool
  s_min : ℚ
  s_max : ℚ
  s_initial : ℚ
  p_demand : List ℚ
  s_goal : List ℚ
  c_min : ℚ
  c_max : ℚ
  d_max : ℚ
  p_a : ℚ
deriving DecidableEq

structure EvoptTimeSeries where
  dt : List ℚ
  gt : List ℚ
  ft : List ℚ
  p_N : List ℚ
  p_E : List ℚ
deriving DecidableEq

structure EvoptRequest where
  strategy : EvoptStrategy
  grid : EvoptGrid
  batteries : List EvoptBattery
  time_series : EvoptTimeSeries
  eta_c : ℚ
  eta_d : ℚ
deriving DecidableEq

/-- Quarter-hour slot index of the day: now.hour * 4 + floor(minute/15). -/
def currentSlot (secs : ℕ) : ℕ := (secs / 3600) * 4 + (secs % 3600) / 60 / 15

/-- Rotation with wrap-around and cap at 192 used at quarter-hour
resolution: (arr[cs:] + arr[:cs])[:192]. -/
def wrapSlice (l : List ℚ) (cs : ℕ) : List ℚ := (l.drop cs ++ l.take cs).take 192

/-- Hourly slicing: drop the elapsed hours of today when the series is
long enough, otherwise keep it unchanged. -/
def sliceHourly (l : List ℚ) (hour : ℕ) : List ℚ :=
  if hour < l.length then l.drop hour else l

/-- Working length at hourly resolution: the minimum length among the
non-empty sliced series, or 1 when all are empty. -/
def reqN (pv pr fe ld : List ℚ) : ℕ :=
  let lens := ([pv, pr, fe, ld].map List.length).filter (fun x => decide (0 < x))
  match lens with
  | [] => 1
  | x :: xs => xs.foldl min x

/-- EVOptBackend._transform_request_from_eos_to_evopt.  tfb is the
configured time_frame_base in seconds (900 selects quarter-hour mode),
secs the seconds since local midnight at the call.  Returns the EVopt
request and the (always empty) external error list, as the source
never appends to errors. -/
def transform_request_from_eos_to_evopt (req : EosRequest) (tfb secs : ℕ) :
    EvoptRequest × List String :=
  let ems := req.ems.getD defaultEms
  let pv0 := ems.pv_prognose_wh.getD []
  let pr0 := ems.strompreis_euro_pro_wh.getD []
  let fe0 := ems.einspeiseverguetung_euro_pro_wh.getD []
  let ld0 := ems.gesamtlast.getD []
  let hour := secs / 3600
  let pv1 := if tfb = 900 then wrapSlice pv0 (currentSlot secs) else sliceHourly pv0 hour
  let pr1 := if tfb = 900 then wrapSlice pr0 (currentSlot secs) else sliceHourly pr0 hour
  let fe1 := if tfb = 900 then wrapSlice fe0 (currentSlot secs) else sliceHourly fe0 hour
  let ld1 := if tfb = 900 then wrapSlice ld0 (currentSlot secs) else sliceHourly ld0 hour
  let n := if tfb = 900 then 192 else reqN pv1 pr1 fe1 ld1
  let normalize := fun (l : List ℚ) => if l = [] then List.replicate n (0 : ℚ) else l.take n
  let pv_ts := normalize pv1
  let pr_ts := normalize pr1
  let fe_ts := normalize fe1
  let ld_ts := normalize ld1
  let akku := req.pv_akku.getD defaultPvAkku
  let batt_capacity_wh := akku.capacity_wh.getD 0
  let batt_initial_pct := akku.initial_soc_percentage.getD 0
  let batt_min_pct := akku.min_soc_percentage.getD 0
  let batt_max_pct := akku.max_soc_percentage.getD 100
  let batt_c_max := akku.max_charge_power_w.getD 0
  let batt_eta_c := akku.charging_efficiency.getD (19/20)
  let batt_eta_d := akku.discharging_efficiency.getD (19/20)
  let batteries : List EvoptBattery :=
    if 0 < batt_capacity_wh then
      [⟨akku.device_id.getD ("akku1"), true, true,
        batt_capacity_wh * (batt_min_pct / 100),
        batt_capacity_wh * (batt_max_pct / 100),
        batt_capacity_wh * (batt_initial_pct / 100),
        List.replicate n 0, List.replicate n 0,
        0, batt_c_max, batt_c_max, 0⟩]
    else []
  let dt_first : ℕ := tfb - secs % tfb
  ({ strategy := ⟨"charge_before_export", "discharge_before_import"⟩,
     grid := ⟨10000, 10000, 0⟩,
     batteries := batteries,
     time_series := ⟨(dt_first : ℚ) :: List.replicate (n - 1) (tfb : ℚ),
                     ld_ts, pv_ts, pr_ts, fe_ts⟩,
     eta_c := if 0 < batt_capacity_wh then batt_eta_c else 19/20,
     eta_d := if 0 < batt_capacity_wh then batt_eta_d else 19/20 }, [])

/-- Concrete EOS request with no battery section at all. -/
def reqNoBattery : EosRequest := ⟨none, none⟩

/-! ## Section 8: EVopt to EOS response translation

Shallow embedding of EVOptBackend._transform_response_from_evopt_to_eos
(optimization_backend_evopt.py, lines 279 to 619).  The EVopt response
is modelled by the fields the function reads; the wrapper dict that may
carry the payload under a response key is modelled by EvccResp.  The
two list accesses that can raise IndexError are the grid_import read in
the ac_charge construction loop and the read/write pair in the
grid-import zeroing loop; they are modelled in the Except monad with a
location tag.  datetime.now is modelled by the current hour h and the
timestamp string ts. -/

structure EautoObj where
  charge_array : Option (List ℚ)
  soc_wh : Option (List ℚ)
deriving DecidableEq

structure EvoptBatteryResp where
  charging_power : Option (List ℚ)
  discharging_power : Option (List ℚ)
  state_of_charge : Option (List ℚ)
deriving DecidableEq

structure EvoptRespPayload where
  batteries : Option (List EvoptBatteryResp)
  grid_import : Option (List ℚ)
  grid_export : Option (List ℚ)
  start_solution : Option (List ℚ)
  eauto_obj : Option EautoObj
  washingstart : Option (List ℚ)
deriving DecidableEq

/-- The raw EVopt response dict: payload holds the top-level keys, and
response, when present, the payload found under the response key
(evcc_resp.get with the dict itself as default). -/
structure EvccResp where
  response : Option EvoptRespPayload
  payload : EvoptRespPayload
deriving DecidableEq

/-- resp = evcc_resp.get("response", evcc_resp). -/
def respOf (r : EvccResp) : EvoptRespPayload := r.response.getD r.payload

/-- n = 48 - current_hour at hourly resolution, quadrupled at
quarter-hour resolution. -/
def horizon_n (tfb h : ℕ) : ℕ := if tfb = 900 then (48 - h) * 4 else 48 - h

/-- Number of zero slots prepended for the elapsed part of the day. -/
def pad_past_len (tfb h : ℕ) : ℕ := if tfb = 900 then h * 4 else h

/-- list(x or [0.0] * n)[:n]: a missing or empty list falls back to n
zeros, and the result is truncated to n entries. -/
def effList (o : Option (List ℚ)) (n : ℕ) : List ℚ :=
  (match o with
   | some l => if l = [] then List.replicate n 0 else l
   | none => List.replicate n 0).take n

/-- first_batt = batteries_resp[0] if batteries_resp else {}. -/
def firstBatt (resp : EvoptRespPayload) : EvoptBatteryResp :=
  match resp.batteries with
  | some (b :: _) => b
  | _ => ⟨none, none, none⟩

/-- The truncated charging_power array of the first battery. -/
def cpEff (resp : EvoptRespPayload) (n : ℕ) : List ℚ :=
  effList (firstBatt resp).charging_power n

/-- The truncated discharging_power array of the first battery. -/
def dpEff (resp : EvoptRespPayload) (n : ℕ) : List ℚ :=
  effList (firstBatt resp).discharging_power n

/-- list(first_batt.get("state_of_charge") or [])[:n] (no zero fill). -/
def socEff (resp : EvoptRespPayload) (n : ℕ) : List ℚ :=
  ((firstBatt resp).state_of_charge.getD []).take n

/-- The truncated grid_import array. -/
def giEff (resp : EvoptRespPayload) (n : ℕ) : List ℚ := effList resp.grid_import n

/-- The truncated grid_export array. -/
def geEff (resp : EvoptRespPayload) (n : ℕ) : List ℚ := effList resp.grid_export n

/-- p_N from the request, normalized to length n by truncation or by
repeating the last entry; zeros when the request or the series is
missing (the electricity_price fallback path). -/
def pnNorm (ev : Option EvoptRequest) (n : ℕ) : List ℚ :=
  match ev with
  | some e =>
    let l := e.time_series.p_N
    if l = [] then List.replicate n 0
    else l.take n ++ List.replicate (n - l.length) (l.getLastD 0)
  | none => List.replicate n 0

/-- p_E from the request, normalized like pnNorm with zero fallback. -/
def peNorm (ev : Option EvoptRequest) (n : ℕ) : List ℚ :=
  match ev with
  | some e =>
    let l := e.time_series.p_E
    if l = [] then List.replicate n 0
    else l.take n ++ List.replicate (n - l.length) (l.getLastD 0)
  | none => List.replicate n 0

/-- breq[0] when the request has a non-empty batteries list. -/
def reqBatt0 (ev : Option EvoptRequest) : Option EvoptBattery :=
  match ev with
  | some e => match e.batteries with
              | b :: _ => some b
              | [] => none
  | none => none

/-- Python max(list) with a default for the guarded empty case. -/
def pyMax (l : List ℚ) (dflt : ℚ) : ℚ :=
  match l with
  | [] => dflt
  | x :: xs => xs.foldl max x

/-- Resolution of c_max: the request battery value unless falsy (absent
request, empty batteries, or 0.0), in which case the observed maximum
of charging_power is used when positive, else 1.0. -/
def cmaxOf (ev : Option EvoptRequest) (cp : List ℚ) : ℚ :=
  let observed := pyMax cp 0
  let fallback := if 0 < observed then observed else 1
  match reqBatt0 ev with
  | some b => if b.c_max = 0 then fallback else b.c_max
  | none => fallback

/-- Error location tag for the two IndexError sites of the response
translation. -/
inductive TErr
  | acLoop
  | zeroLoop
deriving DecidableEq

/-- Body of the ac_charge construction loop: the fraction
min(v, grid_import[i]) / c_max (0 when c_max is not positive), clamped
to [0, 1].  The Python NaN guard cannot fire over the rationals. -/
def clampFrac (v g c : ℚ) : ℚ :=
  let charge_from_grid := min v g
  let frac := if 0 < c then charge_from_grid / c else 0
  max 0 (min 1 frac)

/-- The ac_charge construction loop: for i, v in enumerate(cp), read
gi[i] (IndexError when out of range) and append the clamped fraction. -/
def acLoopGo (gi : List ℚ) (c : ℚ) : List ℚ → ℕ → Except TErr (List ℚ)
  | [], _ => .ok []
  | v :: rest, i =>
    match gi[i]? with
    | none => .error .acLoop
    | some g => (acLoopGo gi c rest (i + 1)).map (fun tl => clampFrac v g c :: tl)

/-- The grid-import zeroing loop, iterating i from the given index for
the given count: read gi[i] (IndexError when out of range) and, when it
is non-positive, write ac[i] = 0 (IndexError when out of range). -/
def zeroGo (gi : List ℚ) : List ℚ → ℕ → ℕ → Except TErr (List ℚ)
  | ac, _, 0 => .ok ac
  | ac, i, k + 1 =>
    match gi[i]? with
    | none => .error .zeroLoop
    | some g =>
      if g ≤ 0 then
        if i < ac.length then zeroGo gi (ac.set i 0) (i + 1) k
        else .error .zeroLoop
      else zeroGo gi ac (i + 1) k

/-- The two fallible loops of the translation in source order. -/
def computeAc (n : ℕ) (cp gi : List ℚ) (c : ℚ) : Except TErr (List ℚ) :=
  match acLoopGo gi c cp 0 with
  | .error e => .error e
  | .ok acl => zeroGo gi acl 0 n

structure EosResult where
  last_wh_pro_stunde : List ℚ
  eauto_soc_pro_stunde : Option (List ℚ)
  einnahmen_euro_pro_stunde : List ℚ
  kosten_euro_pro_stunde : List ℚ
  gesamt_verluste : ℚ
  gesamtbilanz_euro : ℚ
  gesamteinnahmen_euro : ℚ
  gesamtkosten_euro : ℚ
  home_appliance_wh_per_hour : List ℚ
  netzbezug_wh_pro_stunde : List ℚ
  netzeinspeisung_wh_pro_stunde : List ℚ
  verluste_pro_stunde : List ℚ
  akku_soc_pro_stunde : Option (List ℚ)
  electricity_price : List ℚ
deriving DecidableEq

structure EosResp where
  ac_charge : List ℚ
  dc_charge : List ℚ
  discharge_allowed : List ℤ
  eautocharge_hours_float : Option ℚ
  result : EosResult
  eauto_obj : Option EautoObj
  start_solution : List ℚ
  washingstart : Option (List ℚ)
  timestamp : String
deriving DecidableEq

/-- Everything the response translation computes after the two fallible
loops have produced the unpadded ac_charge list acl; a direct
transcription of the remainder of the Python function. -/
def buildEosResp (r : EvccResp) (ev : Option EvoptRequest) (tfb h : ℕ) (ts : String)
    (acl : List ℚ) : EosResp :=
  let n := horizon_n tfb h
  let resp := respOf r
  let cp := cpEff resp n
  let dp := dpEff resp n
  let soc := socEff resp n
  let gi := giEff resp n
  let ge := geEff resp n
  let pn := pnNorm ev n
  let pe := peNorm ev n
  let electricity_price := pn
  let eta_c := match ev, reqBatt0 ev with
               | some e, some _ => e.eta_c
               | _, _ => 19/20
  let eta_d := match ev, reqBatt0 ev with
               | some e, some _ => e.eta_d
               | _, _ => 19/20
  let s_max_val : Option ℚ :=
    match (reqBatt0 ev).map (fun b => b.s_max) with
    | some v => if v = 0 then none else some v
    | none => none
  let dc_charge := cp.map (fun v => if 0 < v then (1 : ℚ) else 0)
  let discharge_allowed := dp.map (fun v => if 1 / 10 ^ 9 < v then (1 : ℤ) else 0)
  let start_solution :=
    match resp.start_solution with
    | some l => l.take n
    | none =>
      match (match resp.eauto_obj with
             | some x => some x
             | none => r.payload.eauto_obj) with
      | some eobj =>
        match eobj.charge_array with
        | some ca => (ca.take n).map (fun x => if 0 < x then (1 : ℚ) else 0)
        | none => List.replicate n 0
      | none => List.replicate n 0
  let kosten := (List.range n).map (fun i => gi.getD i 0 * pn.getD i 0)
  let einnahmen := (List.range n).map (fun i => ge.getD i 0 * pe.getD i 0)
  let verluste := (List.range n).map
    (fun i => cp.getD i 0 * (1 - eta_c) + dp.getD i 0 * (1 - eta_d))
  let akku_soc_pct :=
    if soc = [] then []
    else
      let ref : ℚ := match s_max_val with
                     | some v => v
                     | none => pyMax soc 0
      soc.map (fun v => if 0 < ref then v / ref * 100 else v)
  let last_wh :=
    match ev with
    | some e =>
      let gt := e.time_series.gt
      if gt = [] then gi.take n
      else if n ≤ gt.length then gt.take n
      else gt ++ List.replicate (n - gt.length) (gt.getLastD 0)
    | none => gi.take n
  let pad_past : List ℚ := List.replicate (pad_past_len tfb h) 0
  { ac_charge := pad_past ++ acl,
    dc_charge := pad_past ++ dc_charge,
    discharge_allowed := List.replicate (pad_past_len tfb h) 0 ++ discharge_allowed,
    eautocharge_hours_float := none,
    result :=
      { last_wh_pro_stunde := last_wh,
        eauto_soc_pro_stunde :=
          if akku_soc_pct = [] then none
          else some (match r.payload.eauto_obj with
                     | some eo => (eo.soc_wh.getD []).take n
                     | none => []),
        einnahmen_euro_pro_stunde := einnahmen,
        kosten_euro_pro_stunde := kosten,
        gesamt_verluste := verluste.sum,
        gesamtbilanz_euro := einnahmen.sum - kosten.sum,
        gesamteinnahmen_euro := einnahmen.sum,
        gesamtkosten_euro := kosten.sum,
        home_appliance_wh_per_hour := List.replicate n 0,
        netzbezug_wh_pro_stunde := gi.take n,
        netzeinspeisung_wh_pro_stunde := ge.take n,
        verluste_pro_stunde := verluste,
        akku_soc_pro_stunde :=
          if akku_soc_pct = [] then none else some (akku_soc_pct.take n),
        electricity_price := electricity_price.take n },
    eauto_obj := resp.eauto_obj,
    start_solution := pad_past ++ start_solution,
    washingstart := resp.washingstart.map (fun w => pad_past ++ w),
    timestamp := ts }

/-- EVOptBackend._transform_response_from_evopt_to_eos.  The two
fallible loops run first (in source order nothing fallible precedes
them); on success the rest of the function is pure. -/
def transformResp (r : EvccResp) (ev : Option EvoptRequest) (tfb h : ℕ) (ts : String) :
    Except TErr EosResp :=
  let n := horizon_n tfb h
  let resp := respOf r
  match computeAc n (cpEff resp n) (giEff resp n) (cmaxOf ev (cpEff resp n)) with
  | .error e => .error e
  | .ok acl => .ok (buildEosResp r ev tfb h ts acl)

/-- The empty EVopt response payload. -/
def emptyPayload : EvoptRespPayload := ⟨none, none, none, none, none, none⟩

/-- Minimal EVopt response: an unwrapped dict with none of the read
keys present. -/
def respEmpty : EvccResp := ⟨none, emptyPayload⟩

/-- EVopt response whose grid_import is non-empty but far shorter than
the horizon, with no batteries entry. -/
def respShortGrid : EvccResp := ⟨none, { emptyPayload with grid_import := some [1] }⟩

/-- EVopt response with a short charging_power array and a full-length,
everywhere non-positive grid_import array. -/
def respShortCp : EvccResp :=
  ⟨none, { emptyPayload with
            batteries := some [⟨some [5], none, none⟩],
            grid_import := some (List.replicate 48 (-1)) }⟩

/-- Timestamp constant used by the concrete examples. -/
def tsW : String := "2025-01-01T00:00:00+01:00"

/-- Concrete EOS request whose battery section is present but with a
non-positive capacity. -/
def reqNegBattery : EosRequest :=
  ⟨none, some { defaultPvAkku with capacity_wh := some (-5) }⟩

/-- Concrete EVopt request battery with c_max = 2000 W. -/
def battC6 : EvoptBattery :=
  ⟨"akku1", true, true, 1000, 10000, 2000, [], [], 0, 2000, 2000, 0⟩

/-- Concrete EVopt request carrying battC6. -/
def evC6 : EvoptRequest :=
  { strategy := ⟨"charge_before_export", "discharge_before_import"⟩,
    grid := ⟨10000, 10000, 0⟩,
    batteries := [battC6],
    time_series := ⟨[], [], [], [], []⟩,
    eta_c := 19/20,
    eta_d := 19/20 }

/-- Concrete EVopt response with full-length charging_power (1000 W on
every slot) and grid_import (600 W on every slot). -/
def respC6 : EvccResp :=
  ⟨none, { emptyPayload with
            batteries := some [⟨some (List.replicate 48 1000), none, none⟩],
            grid_import := some (List.replicate 48 600) }⟩

/-! ## Theorems -/

/-! ### Model validation for calculate_next_run_time

The two end-to-end scenarios of the specification that are not in
dispute, reproduced by the embedding: normal quarter alignment and the
gap-fill case. -/

/-- Scenario 1 of the specification: now 00:05:00, runtime 60 s,
interval 300 s gives a wake time of 00:14:00. -/
theorem calc_next_run_scenario1 : calculate_next_run_time 300 60 300 = 840 := by
  norm_num [calculate_next_run_time, floorToMinute]

/-- Scenario 2 of the specification: now 00:00:00, runtime 60 s,
interval 60 s triggers a gap-fill run at 00:01:00. -/
theorem calc_next_run_scenario2 : calculate_next_run_time 0 60 60 = 60 := by
  norm_num [calculate_next_run_time, floorToMinute]

/-- Claim C1 (counterexample): for now = 00:14:30 (870 s), runtime
60 s, interval 300 s, the function does not return 00:29:00 (1740 s) as
the claim states. -/
theorem c1_counterexample : calculate_next_run_time 870 60 300 ≠ 1740 := by
  norm_num [calculate_next_run_time, floorToMinute]

/-- Claim C1 (amended): for now = 00:14:30, runtime 60 s, interval
300 s, the candidate start 00:14:00 is in the past and the quarter
advances to 00:30:00 with start 00:29:00, but the 870 s gap then
satisfies the gap-fill rule (870 at least 2 * 300 and at least 252), so
the function returns the gap-fill wake time now + 300 s = 00:19:30
(1170 s). -/
theorem c1_gap_fill : calculate_next_run_time 870 60 300 = 1170 := by
  norm_num [calculate_next_run_time, floorToMinute]

/-- Claim C2 (code bug): the duration and grid-charge-power validations
of handle_mode_override use a conjunction where the intended rule (as
stated in their own error messages) needs the complementary bound, so a
duration of 13:00 (780 minutes, above the 12-hour bound) and a
grid_charge_power of 10 kW (above max_grid_charge_rate / 1000 = 5 kW)
are both accepted with 200 success instead of rejected with 400. -/
theorem c2_code_bug_eval :
    handle_mode_override (some ⟨1, 13, 0, 1⟩) 5000 = (200, "success") ∧
    ¬ ((0 : ℤ) < 13 * 60 + 0 ∧ 13 * 60 + 0 ≤ 12 * 60) ∧
    handle_mode_override (some ⟨1, 1, 0, 10⟩) 5000 = (200, "success") ∧
    ¬ ((1/2 : ℚ) ≤ 10 ∧ (10 : ℚ) ≤ 5000 / 1000) := by
  refine ⟨?_, by norm_num, ?_, by norm_num⟩ <;>
    norm_num [handle_mode_override]

/-- Claim C3 (counterexample): an IndexError raised inside
run_optimization (for example from a control array shorter than the
current hour) is not matched by the except clause and propagates out of
the loop frame instead of being swallowed. -/
theorem c3_counterexample :
    loopRun [some PyExc.indexError] = Except.error PyExc.indexError := rfl

/-- Claim C3 (amended): every iteration outcome that is a
RequestException (including its ConnectionError, Timeout and HTTPError
subclasses), a ValueError or a KeyError is caught and the loop
continues; a run whose exceptions are all of these kinds completes
every iteration. -/
theorem c3_loop_swallows (outcomes : List (Option PyExc))
    (hc : ∀ e, some e ∈ outcomes → loopCatches e = true) :
    loopRun outcomes = .ok outcomes.length := by
  induction outcomes with
  | nil => rfl
  | cons o rest ih =>
    have hrest : ∀ e, some e ∈ rest → loopCatches e = true :=
      fun e he => hc e (List.mem_cons_of_mem _ he)
    cases o with
    | none => simp [loopRun, ih hrest, Except.map]
    | some e =>
      have he : loopCatches e = true := hc e (List.mem_cons_self _ _)
      simp [loopRun, he, ih hrest, Except.map]

/-- Witness for c3_loop_swallows at a concrete outcome list. -/
theorem c3_witness :
    loopRun [none, some PyExc.valueError, some PyExc.timeout] = .ok 3 :=
  c3_loop_swallows [none, some PyExc.valueError, some PyExc.timeout] (by decide)

/-- Claim C5: the ring buffer always holds exactly five entries; the
average returned on success is the sum of the buffer divided by 5; a
success on an all-zero buffer fills every slot with the elapsed time;
a failed call leaves the state unchanged and returns no average. -/
theorem c5_ring_buffer :
    (∀ evs, (optimize_runtime_run evs).runtimes.length = 5) ∧
    (∀ s (e : ℚ), s.runtimes.all (fun r => r == 0) = true →
      (optimize_runtime_step s (.success e)).1.runtimes = List.replicate 5 e) ∧
    (∀ s (e : ℚ), (optimize_runtime_step s (.success e)).2 =
      some ((optimize_runtime_step s (.success e)).1.runtimes.sum / 5)) ∧
    (∀ s, optimize_runtime_step s .failure = (s, none)) := by
  refine ⟨?_, ?_, ?_, fun s => rfl⟩
  · intro evs
    suffices h : ∀ (l : List OptimizeEvent) (s : RuntimeRing), s.runtimes.length = 5 →
        (l.foldl (fun s ev => (optimize_runtime_step s ev).1) s).runtimes.length = 5 by
      exact h evs initRing (by simp [initRing])
    intro l
    induction l with
    | nil => intro s hs; simpa using hs
    | cons ev rest ih =>
      intro s hs
      refine ih _ ?_
      cases ev with
      | success e =>
        simp only [optimize_runtime_step]
        split
        · simp
        · simpa using hs
      | failure => simpa using hs
  · intro s e h
    simp [optimize_runtime_step, h]
  · intro s e
    rfl

/-- Witness for c5_ring_buffer: the first success on the all-zero
constructor buffer seeds all five slots. -/
theorem c5_witness :
    (optimize_runtime_step initRing (.success 3)).1.runtimes = List.replicate 5 3 :=
  c5_ring_buffer.2.1 initRing 3 (by decide)

/-! ### Response interpreter lemmas and claim C4 -/

theorem washingBlock_data0 (w : Option ℤ) (h : ℕ) (st : EosIfState) :
    (washingBlock w h st).last_control_data0 = st.last_control_data0 := by
  cases w <;> rfl

theorem washingBlock_data1 (w : Option ℤ) (h : ℕ) (st : EosIfState) :
    (washingBlock w h st).last_control_data1 = st.last_control_data1 := by
  cases w <;> rfl

theorem startSolutionBlock_snd (ss : Option (List ℚ)) (st : EosIfState) :
    (startSolutionBlock ss st).2 = start_solution_short ss := by
  cases ss with
  | none => rfl
  | some l =>
    by_cases h : 1 < l.length <;> simp [startSolutionBlock, start_solution_short, h]

/-- Claim C4 (amended): after a completed call of
examine_response_to_control_data, the error fields of both entries of
last_control_data equal 1 exactly when start_solution is missing or has
length at most one; missing control arrays do not set them. -/
theorem c4_error_iff_short_start_solution (h : ℕ) (resp : ExamineResponse)
    (st : EosIfState) (out : EosIfState × (Option ℚ × Option ℚ × Option Bool × Bool))
    (hrun : examine_response_to_control_data h resp st = some out) :
    out.1.last_control_data0.error =
      (if start_solution_short resp.start_solution then 1 else 0) ∧
    out.1.last_control_data1.error =
      (if start_solution_short resp.start_solution then 1 else 0) := by
  simp only [examine_response_to_control_data, Option.bind_eq_some] at hrun
  obtain ⟨p1, hp1, p2, hp2, p3, hp3, hout⟩ := hrun
  have hout2 := Option.some.inj hout
  subst hout2
  rw [← startSolutionBlock_snd resp.start_solution p3.1]
  constructor
  · rw [washingBlock_data0]
    rfl
  · rw [washingBlock_data1]
    rfl

/-- Claim C4 (counterexample): a response whose control arrays are all
missing but whose start_solution has length 2 completes with both error
fields equal to 0, while the claim requires them to be 1. -/
theorem c4_counterexample :
    respC4.ac_charge = none ∧ respC4.dc_charge = none ∧
    respC4.discharge_allowed = none ∧
    (examine_response_to_control_data 10 respC4 initEosIfState).map
        (fun out => (out.1.last_control_data0.error, out.1.last_control_data1.error))
      = some (0, 0) := by
  exact ⟨rfl, rfl, rfl, rfl⟩

/-- Witness for c4_error_iff_short_start_solution: a complete response
with a long start_solution ends with error 0. -/
theorem c4_witness :
    ((examine_response_to_control_data 0 respWitness initEosIfState).getD
        (initEosIfState, (none, none, none, true))).1.last_control_data0.error = 0 := by
  have hrun : examine_response_to_control_data 0 respWitness initEosIfState =
      some ((examine_response_to_control_data 0 respWitness initEosIfState).getD
        (initEosIfState, (none, none, none, true))) := rfl
  have h2 := c4_error_iff_short_start_solution 0 respWitness initEosIfState _ hrun
  rw [h2.1]
  rfl

/-! ### Feed-in price lemmas and claim C8 -/

theorem getD_map_lt (f : ℚ → ℚ) (l : List ℚ) (i : ℕ) (hi : i < l.length) :
    (l.map f).getD i 0 = f (l.getD i 0) := by
  rw [List.getD_eq_getElem?_getD, List.getD_eq_getElem?_getD, List.getElem?_map]
  cases hq : l[i]? with
  | none => exact absurd (List.getElem?_eq_none_iff.mp hq) (Nat.not_le.mpr hi)
  | some a => rfl

/-- Claim C8 (amended): after an update_prices step, the feed-in array
has one entry per entry of the retrieved tax-free price array
current_prices_direct, each equal to 0 where the switch is on and the
tax-free price is negative, and to the rounded constant tariff
otherwise.  The zeroing is driven by current_prices_direct, not by the
stored import price array current_prices. -/
theorem c8_feedin_from_direct (st : PriceState) (retrieved : List ℚ × List ℚ)
    (i : ℕ) (hi : i < retrieved.2.length) :
    (update_prices_with st retrieved).current_feedin.length = retrieved.2.length ∧
    (update_prices_with st retrieved).current_feedin.getD i 0 =
      (if st.negative_price_switch = true ∧ retrieved.2.getD i 0 < 0 then 0
       else round9 (st.feed_in_tariff_price / 1000)) := by
  cases hsw : st.negative_price_switch with
  | true =>
    constructor
    · simp [update_prices_with, create_feedin_prices, hsw]
    · rw [show (update_prices_with st retrieved).current_feedin =
          retrieved.2.map (fun price =>
            if price < 0 then 0 else round9 (st.feed_in_tariff_price / 1000)) by
        simp [update_prices_with, create_feedin_prices, hsw]]
      rw [getD_map_lt _ _ _ hi]
      simp
  | false =>
    constructor
    · simp [update_prices_with, create_feedin_prices, hsw]
    · rw [show (update_prices_with st retrieved).current_feedin =
          retrieved.2.map (fun _ => round9 (st.feed_in_tariff_price / 1000)) by
        simp [update_prices_with, create_feedin_prices, hsw]]
      rw [getD_map_lt _ _ _ hi]
      simp

/-- Witness for c8_feedin_from_direct: with the switch on and a
negative tax-free price, the feed-in entry is 0. -/
theorem c8_witness :
    (update_prices_with ⟨true, 75, [], [], []⟩ ([3], [-2])).current_feedin.getD 0 0 = 0 := by
  have h2 := (c8_feedin_from_direct ⟨true, 75, [], [], []⟩ ([3], [-2]) 0 (by simp)).2
  rw [h2]
  norm_num

/-- Claim C8 (counterexample): a successful tibber fetch with hourly
total price 100 (taxed) and energy price -50 (tax-free) yields an
imported price of 0.1 at index 0, not negative, yet the feed-in
entry is zeroed; the claim demands the constant tariff
round9(75/1000), which is not 0.  The zeroing follows the tax-free
price array, not the import prices. -/
theorem c8_counterexample :
    (update_prices_tibber ⟨true, 75, [], [], []⟩ [(100, -50)] [] 0 1).current_prices
      = [1/10] ∧
    (update_prices_tibber ⟨true, 75, [], [], []⟩ [(100, -50)] [] 0 1).current_feedin
      = [0] ∧
    ¬ ((1 : ℚ) / 10 < 0) ∧
    round9 ((75 : ℚ) / 1000) ≠ 0 := by
  refine ⟨?_, ?_, by norm_num, ?_⟩
  · norm_num [update_prices_tibber, tibber_price_lists, update_prices_with,
      create_feedin_prices, round9]
  · norm_num [update_prices_tibber, tibber_price_lists, update_prices_with,
      create_feedin_prices, round9]
  · norm_num [round9]

/-! ### Request translation: claim C7 -/

/-- Claim C7 (counterexample): with the battery section absent, the
EVopt request carries an empty batteries list rather than the
single zero-capacity placeholder the claim describes. -/
theorem c7_counterexample :
    (transform_request_from_eos_to_evopt reqNoBattery 3600 0).1.batteries = [] ∧
    ((transform_request_from_eos_to_evopt reqNoBattery 3600 0).1.batteries).length ≠ 1 ∧
    (reqNoBattery.pv_akku.getD defaultPvAkku).capacity_wh.getD 0 ≤ 0 := by
  refine ⟨?_, ?_, by norm_num [reqNoBattery, defaultPvAkku]⟩ <;>
    norm_num [transform_request_from_eos_to_evopt, reqNoBattery, defaultPvAkku]

/-- Claim C7 (amended): whenever the EOS request battery capacity is
absent or non-positive, the produced EVopt request contains no battery
entry at all (batteries is the empty list). -/
theorem c7_no_battery_entry (req : EosRequest) (tfb secs : ℕ)
    (hcap : (req.pv_akku.getD defaultPvAkku).capacity_wh.getD 0 ≤ 0) :
    (transform_request_from_eos_to_evopt req tfb secs).1.batteries = [] := by
  simp only [transform_request_from_eos_to_evopt]
  rw [if_neg (not_lt.mpr hcap)]

/-- Witness for c7_no_battery_entry at a negative-capacity battery. -/
theorem c7_witness :
    (transform_request_from_eos_to_evopt reqNegBattery 900 100).1.batteries = [] :=
  c7_no_battery_entry reqNegBattery 900 100
    (by norm_num [reqNegBattery, defaultPvAkku])

/-! ### Response translation helper lemmas -/

theorem getElem?_eq_some_getD (l : List ℚ) (i : ℕ) (hi : i < l.length) :
    l[i]? = some (l.getD i 0) := by
  rw [List.getD_eq_getElem?_getD]
  cases hq : l[i]? with
  | none => exact absurd (List.getElem?_eq_none_iff.mp hq) (Nat.not_le.mpr hi)
  | some a => rfl

theorem getD_take_lt (l : List ℚ) (n i : ℕ) (hi : i < n) :
    (l.take n).getD i 0 = l.getD i 0 := by
  rw [List.getD_eq_getElem?_getD, List.getD_eq_getElem?_getD,
    List.getElem?_take_of_lt hi]

theorem getD_replicate_lt (n : ℕ) (a : ℚ) (i : ℕ) (hi : i < n) :
    (List.replicate n a).getD i 0 = a := by
  rw [List.getD_eq_getElem?_getD, List.getElem?_replicate]
  simp [hi]

theorem getD_set_self (l : List ℚ) (i : ℕ) (a : ℚ) (hi : i < l.length) :
    (l.set i a).getD i 0 = a := by
  rw [List.getD_eq_getElem?_getD, List.getElem?_set_self hi]
  rfl

theorem getD_set_ne (l : List ℚ) (i j : ℕ) (a : ℚ) (hij : i ≠ j) :
    (l.set i a).getD j 0 = l.getD j 0 := by
  rw [List.getD_eq_getElem?_getD, List.getD_eq_getElem?_getD, List.getElem?_set_ne hij]

theorem effList_none (n : ℕ) : effList none n = List.replicate n 0 := by
  simp [effList, List.take_replicate]

theorem effList_ne_nil (l : List ℚ) (hl : l ≠ []) (n : ℕ) :
    effList (some l) n = l.take n := by
  simp [effList, hl]

theorem effList_of_le (l : List ℚ) (n : ℕ) (h : n ≤ l.length) :
    effList (some l) n = l.take n := by
  cases l with
  | nil =>
    have : n = 0 := by simpa using h
    subst this
    simp [effList]
  | cons a t => exact effList_ne_nil _ (by simp) n

theorem effList_length_le (o : Option (List ℚ)) (n : ℕ) : (effList o n).length ≤ n := by
  cases o with
  | none => simp [effList]
  | some l =>
    by_cases hl : l = [] <;> simp [effList, hl, List.length_take]

/-! ### The two fallible loops -/

theorem acLoopGo_ok (gi : List ℚ) (c : ℚ) :
    ∀ (cp : List ℚ) (i : ℕ), i + cp.length ≤ gi.length →
      ∃ l, acLoopGo gi c cp i = .ok l ∧ l.length = cp.length ∧
        ∀ j, j < cp.length →
          l.getD j 0 = clampFrac (cp.getD j 0) (gi.getD (i + j) 0) c := by
  intro cp
  induction cp with
  | nil =>
    intro i hlen
    exact ⟨[], rfl, rfl, fun j hj => absurd hj (by simp)⟩
  | cons v rest ih =>
    intro i hlen
    simp only [List.length_cons] at hlen
    have hi : i < gi.length := by omega
    have hgi : gi[i]? = some (gi.getD i 0) := getElem?_eq_some_getD gi i hi
    obtain ⟨l, hl, hlenl, hval⟩ := ih (i + 1) (by omega)
    refine ⟨clampFrac v (gi.getD i 0) c :: l, ?_, by simp [hlenl], ?_⟩
    · simp only [acLoopGo, hgi, hl, Except.map]
    · intro j hj
      cases j with
      | zero => simp
      | succ k =>
        have hk : k < rest.length := by simpa using hj
        have hadd : i + (k + 1) = i + 1 + k := by omega
        simpa [hadd] using hval k hk

theorem acLoopGo_err (gi : List ℚ) (c : ℚ) :
    ∀ (cp : List ℚ) (i : ℕ), i ≤ gi.length → gi.length < i + cp.length →
      acLoopGo gi c cp i = .error .acLoop := by
  intro cp
  induction cp with
  | nil =>
    intro i h1 h2
    simp only [List.length_nil, Nat.add_zero] at h2
    exact absurd h2 (Nat.not_lt.mpr h1)
  | cons v rest ih =>
    intro i h1 h2
    by_cases hi : i < gi.length
    · have hgi : gi[i]? = some (gi.getD i 0) := getElem?_eq_some_getD gi i hi
      have hrec := ih (i + 1) (by omega) (by simp only [List.length_cons] at h2; omega)
      simp only [acLoopGo, hgi, hrec, Except.map]
    · have hnone : gi[i]? = none := List.getElem?_eq_none_iff.mpr (Nat.not_lt.mp hi)
      simp only [acLoopGo, hnone]

theorem zeroGo_ok (gi : List ℚ) :
    ∀ (k i : ℕ) (ac : List ℚ), i + k ≤ gi.length → ac.length = gi.length →
      ∃ l, zeroGo gi ac i k = .ok l ∧ l.length = ac.length ∧
        ∀ j, l.getD j 0 =
          if i ≤ j ∧ j < i + k ∧ gi.getD j 0 ≤ 0 then 0 else ac.getD j 0 := by
  intro k
  induction k with
  | zero =>
    intro i ac h1 h2
    refine ⟨ac, rfl, rfl, fun j => ?_⟩
    rw [if_neg]
    rintro ⟨hij, hji, -⟩
    omega
  | succ kk ih =>
    intro i ac h1 h2
    have hi : i < gi.length := by omega
    have hgi : gi[i]? = some (gi.getD i 0) := getElem?_eq_some_getD gi i hi
    by_cases hg : gi.getD i 0 ≤ 0
    · have hlt : i < ac.length := by omega
      obtain ⟨l, hl, hlen, hval⟩ := ih (i + 1) (ac.set i 0) (by omega)
        (by simp [List.length_set, h2])
      refine ⟨l, ?_, by simpa [List.length_set] using hlen, fun j => ?_⟩
      · simp only [zeroGo, hgi]
        rw [if_pos hg, if_pos hlt]
        exact hl
      · rw [hval j]
        by_cases hji : j = i
        · subst hji
          rw [if_neg (by omega), if_pos ⟨le_refl _, by omega, hg⟩]
          exact getD_set_self ac j 0 hlt
        · rw [getD_set_ne ac i j 0 (fun hc => hji hc.symm)]
          by_cases hcond : i ≤ j ∧ j < i + (kk + 1) ∧ gi.getD j 0 ≤ 0
          · rw [if_pos ⟨by omega, by omega, hcond.2.2⟩, if_pos hcond]
          · rw [if_neg (fun hc => hcond ⟨by omega, by omega, hc.2.2⟩), if_neg hcond]
    · obtain ⟨l, hl, hlen, hval⟩ := ih (i + 1) ac (by omega) h2
      refine ⟨l, ?_, hlen, fun j => ?_⟩
      · simp only [zeroGo, hgi]
        rw [if_neg hg]
        exact hl
      · rw [hval j]
        by_cases hji : j = i
        · subst hji
          rw [if_neg (by omega), if_neg (fun hc => hg hc.2.2)]
        · by_cases hcond : i ≤ j ∧ j < i + (kk + 1) ∧ gi.getD j 0 ≤ 0
          · rw [if_pos ⟨by omega, by omega, hcond.2.2⟩, if_pos hcond]
          · rw [if_neg (fun hc => hcond ⟨by omega, by omega, hc.2.2⟩), if_neg hcond]

theorem zeroGo_err_read (gi : List ℚ) :
    ∀ (k i : ℕ) (ac : List ℚ), gi.length < i + k → i ≤ gi.length →
      zeroGo gi ac i k = .error .zeroLoop := by
  intro k
  induction k with
  | zero =>
    intro i ac h1 h2
    exact absurd (by omega : gi.length < i) (Nat.not_lt.mpr h2)
  | succ kk ih =>
    intro i ac h1 h2
    by_cases hi : i < gi.length
    · have hgi : gi[i]? = some (gi.getD i 0) := getElem?_eq_some_getD gi i hi
      simp only [zeroGo, hgi]
      by_cases hg : gi.getD i 0 ≤ 0
      · rw [if_pos hg]
        by_cases hlt : i < ac.length
        · rw [if_pos hlt]
          exact ih (i + 1) _ (by omega) (by omega)
        · rw [if_neg hlt]
      · rw [if_neg hg]
        exact ih (i + 1) ac (by omega) (by omega)
    · have hnone : gi[i]? = none := List.getElem?_eq_none_iff.mpr (Nat.not_lt.mp hi)
      simp only [zeroGo, hnone]

theorem zeroGo_err_write (gi : List ℚ) :
    ∀ (k i : ℕ) (ac : List ℚ), i + k ≤ gi.length →
      (∃ j, i ≤ j ∧ j < i + k ∧ gi.getD j 0 ≤ 0 ∧ ac.length ≤ j) →
      zeroGo gi ac i k = .error .zeroLoop := by
  intro k
  induction k with
  | zero =>
    intro i ac h1 h2
    obtain ⟨j, hj1, hj2, -, -⟩ := h2
    omega
  | succ kk ih =>
    intro i ac h1 h2
    obtain ⟨j, hij, hjk, hgj, haj⟩ := h2
    have hi : i < gi.length := by omega
    have hgi : gi[i]? = some (gi.getD i 0) := getElem?_eq_some_getD gi i hi
    simp only [zeroGo, hgi]
    by_cases hg : gi.getD i 0 ≤ 0
    · rw [if_pos hg]
      by_cases hlt : i < ac.length
      · rw [if_pos hlt]
        exact ih (i + 1) (ac.set i 0) (by omega)
          ⟨j, by omega, by omega, hgj, by simp [List.length_set]; omega⟩
      · rw [if_neg hlt]
    · rw [if_neg hg]
      have hji : j ≠ i := fun hc => hg (hc ▸ hgj)
      exact ih (i + 1) ac (by omega) ⟨j, by omega, by omega, hgj, haj⟩

theorem computeAc_ok (n : ℕ) (cp gi : List ℚ) (c : ℚ)
    (hcp : cp.length = n) (hgi : gi.length = n) :
    ∃ l, computeAc n cp gi c = .ok l ∧ l.length = n ∧
      ∀ j, j < n → l.getD j 0 =
        if gi.getD j 0 ≤ 0 then 0
        else clampFrac (cp.getD j 0) (gi.getD j 0) c := by
  obtain ⟨acl, hacl, hlen, hval⟩ := acLoopGo_ok gi c cp 0 (by omega)
  obtain ⟨l, hl, hlen2, hval2⟩ := zeroGo_ok gi n 0 acl (by omega) (by omega)
  refine ⟨l, ?_, by omega, fun j hj => ?_⟩
  · simp only [computeAc, hacl]
    exact hl
  · rw [hval2 j]
    by_cases hg : gi.getD j 0 ≤ 0
    · rw [if_pos ⟨Nat.zero_le _, by omega, hg⟩, if_pos hg]
    · rw [if_neg (fun hc => hg hc.2.2), if_neg hg, hval j (by omega)]
      simp

theorem transformResp_ok_eq (r : EvccResp) (ev : Option EvoptRequest) (tfb h : ℕ)
    (ts : String) (acl : List ℚ)
    (hc : computeAc (horizon_n tfb h) (cpEff (respOf r) (horizon_n tfb h))
        (giEff (respOf r) (horizon_n tfb h))
        (cmaxOf ev (cpEff (respOf r) (horizon_n tfb h))) = .ok acl) :
    transformResp r ev tfb h ts = .ok (buildEosResp r ev tfb h ts acl) := by
  simp only [transformResp]
  rw [hc]

theorem transformResp_err_eq (r : EvccResp) (ev : Option EvoptRequest) (tfb h : ℕ)
    (ts : String) (e : TErr)
    (hc : computeAc (horizon_n tfb h) (cpEff (respOf r) (horizon_n tfb h))
        (giEff (respOf r) (horizon_n tfb h))
        (cmaxOf ev (cpEff (respOf r) (horizon_n tfb h))) = .error e) :
    transformResp r ev tfb h ts = .error e := by
  simp only [transformResp]
  rw [hc]

/-! ### Claim C6: the ac_charge formula of the response translation -/

/-- Claim C6: when the first response battery's charging_power and the
response grid_import both have at least n entries and the request
battery's c_max is positive, every unpadded ac_charge entry equals
clamp(min(charging_power[i], grid_import[i]) / c_max, 0, 1), and is 0
wherever grid_import[i] is non-positive. -/
theorem c6_ac_charge_formula (r : EvccResp) (ev : EvoptRequest) (br : EvoptBattery)
    (bt : List EvoptBattery) (tfb h : ℕ) (ts : String) (cp gi : List ℚ)
    (hbat : ev.batteries = br :: bt)
    (hcmax : 0 < br.c_max)
    (hcp : (firstBatt (respOf r)).charging_power = some cp)
    (hgi : (respOf r).grid_import = some gi)
    (hcpn : horizon_n tfb h ≤ cp.length)
    (hgin : horizon_n tfb h ≤ gi.length) :
    ∀ i, i < horizon_n tfb h →
      (transformResp r (some ev) tfb h ts).map
          (fun out => (out.ac_charge.drop (pad_past_len tfb h)).getD i 0)
        = Except.ok (max 0 (min 1 (min (cp.getD i 0) (gi.getD i 0) / br.c_max))) ∧
      (gi.getD i 0 ≤ 0 →
        (transformResp r (some ev) tfb h ts).map
            (fun out => (out.ac_charge.drop (pad_past_len tfb h)).getD i 0)
          = Except.ok 0) := by
  have hcpE : cpEff (respOf r) (horizon_n tfb h) = cp.take (horizon_n tfb h) := by
    rw [cpEff, hcp, effList_of_le _ _ hcpn]
  have hgiE : giEff (respOf r) (horizon_n tfb h) = gi.take (horizon_n tfb h) := by
    rw [giEff, hgi, effList_of_le _ _ hgin]
  have hcm : cmaxOf (some ev) (cpEff (respOf r) (horizon_n tfb h)) = br.c_max := by
    simp only [cmaxOf, reqBatt0, hbat]
    rw [if_neg (ne_of_gt hcmax)]
  obtain ⟨l, hl, hlen, hval⟩ := computeAc_ok (horizon_n tfb h)
    (cp.take (horizon_n tfb h)) (gi.take (horizon_n tfb h)) br.c_max
    (by rw [List.length_take]; omega) (by rw [List.length_take]; omega)
  have htr : transformResp r (some ev) tfb h ts
      = .ok (buildEosResp r (some ev) tfb h ts l) := by
    apply transformResp_ok_eq
    rw [hcm, hcpE, hgiE]
    exact hl
  intro i hi
  have hdrop : ((buildEosResp r (some ev) tfb h ts l).ac_charge).drop (pad_past_len tfb h)
      = l := by
    show ((List.replicate (pad_past_len tfb h) (0 : ℚ) ++ l).drop (pad_past_len tfb h)) = l
    exact List.drop_left' (List.length_replicate _ _)
  have hmap : (transformResp r (some ev) tfb h ts).map
      (fun out => (out.ac_charge.drop (pad_past_len tfb h)).getD i 0)
      = Except.ok (l.getD i 0) := by
    rw [htr]
    simp only [Except.map]
    rw [hdrop]
  have hvl := hval i hi
  rw [getD_take_lt cp _ i hi, getD_take_lt gi _ i hi] at hvl
  constructor
  · rw [hmap, hvl]
    by_cases hg : gi.getD i 0 ≤ 0
    · rw [if_pos hg]
      have h1 : min (cp.getD i 0) (gi.getD i 0) / br.c_max ≤ 0 :=
        div_nonpos_of_nonpos_of_nonneg (le_trans (min_le_right _ _) hg) hcmax.le
      rw [max_eq_left (le_trans (min_le_right _ _) h1)]
    · rw [if_neg hg]
      simp [clampFrac, hcmax]
  · intro hg
    rw [hmap, hvl, if_pos hg]

/-- Witness for c6_ac_charge_formula: 1000 W charging power against
600 W grid import and c_max 2000 W gives the fraction 0.3 on slot 0. -/
theorem c6_witness :
    (transformResp respC6 (some evC6) 3600 0 tsW).map
        (fun out => (out.ac_charge.drop (pad_past_len 3600 0)).getD 0 0)
      = Except.ok (3/10) := by
  have h := (c6_ac_charge_formula respC6 evC6 battC6 [] 3600 0 tsW
      (List.replicate 48 1000) (List.replicate 48 600) rfl (by norm_num [battC6]) rfl rfl
      (by simp [horizon_n]) (by simp [horizon_n]) 0 (by simp [horizon_n])).1
  rw [h, getD_replicate_lt 48 1000 0 (by norm_num),
    getD_replicate_lt 48 600 0 (by norm_num)]
  rw [min_eq_right (by norm_num : (600 : ℚ) ≤ 1000)]
  rw [show (600 : ℚ) / battC6.c_max = 3/10 by norm_num [battC6]]
  rw [min_eq_right (by norm_num : (3 : ℚ)/10 ≤ 1)]
  rw [max_eq_right (by norm_num : (0 : ℚ) ≤ 3/10)]

/-! ### Claim C9: statelessness of the response translation -/

/-- Claim C9 (counterexample): the response translation reads the wall
clock, so two calls with identical evcc_resp and evopt arguments made
at different hours return different responses (here the result arrays
have lengths 48 and 47). -/
theorem c9_counterexample :
    transformResp respEmpty none 3600 0 tsW ≠ transformResp respEmpty none 3600 1 tsW := by
  have hgi0 : ∀ hh : ℕ, giEff (respOf respEmpty) (horizon_n 3600 hh)
      = List.replicate (horizon_n 3600 hh) 0 := by
    intro hh
    simp [giEff, respOf, respEmpty, emptyPayload, effList_none]
  have hcp0 : ∀ hh : ℕ, cpEff (respOf respEmpty) (horizon_n 3600 hh)
      = List.replicate (horizon_n 3600 hh) 0 := by
    intro hh
    simp [cpEff, firstBatt, respOf, respEmpty, emptyPayload, effList_none]
  have hget : ∀ hh : ℕ,
      (transformResp respEmpty none 3600 hh tsW).map
        (fun o => o.result.netzbezug_wh_pro_stunde.length)
      = Except.ok (horizon_n 3600 hh) := by
    intro hh
    obtain ⟨l, hl, -, -⟩ := computeAc_ok (horizon_n 3600 hh)
      (cpEff (respOf respEmpty) (horizon_n 3600 hh))
      (giEff (respOf respEmpty) (horizon_n 3600 hh))
      (cmaxOf none (cpEff (respOf respEmpty) (horizon_n 3600 hh)))
      (by rw [hcp0]; simp) (by rw [hgi0]; simp)
    rw [transformResp_ok_eq respEmpty none 3600 hh tsW l hl]
    simp only [Except.map]
    have hfield : (buildEosResp respEmpty none 3600 hh tsW l).result.netzbezug_wh_pro_stunde
        = (giEff (respOf respEmpty) (horizon_n 3600 hh)).take (horizon_n 3600 hh) := rfl
    rw [hfield, hgi0, List.take_replicate, List.length_replicate]
    simp
  intro hEq
  have h0 := hget 0
  have h1 := hget 1
  rw [hEq] at h0
  rw [h0] at h1
  have h2 : horizon_n 3600 0 = horizon_n 3600 1 := Except.ok.inj h1
  simp [horizon_n] at h2

/-- Claim C9 (amended): the response translation is a pure function of
evcc_resp, evopt, the configured time base and the wall-clock reading
(current hour and timestamp); two calls that agree on all of these
return identical responses. -/
theorem c9_deterministic_given_time (r : EvccResp) (ev : Option EvoptRequest)
    (tfb h1 h2 : ℕ) (ts1 ts2 : String) (hh : h1 = h2) (hts : ts1 = ts2) :
    transformResp r ev tfb h1 ts1 = transformResp r ev tfb h2 ts2 := by
  subst hh
  subst hts
  rfl

/-- Witness for c9_deterministic_given_time. -/
theorem c9_witness :
    transformResp respEmpty none 3600 5 tsW = transformResp respEmpty none 3600 5 tsW :=
  c9_deterministic_given_time respEmpty none 3600 5 5 tsW tsW rfl rfl

/-! ### Claim C10: partiality of the response translation -/

/-- Claim C10 (amended): when grid_import is non-empty but shorter than
the horizon n, or the first battery's charging_power is shorter than n
while grid_import is non-positive at some index beyond its length, the
translation raises IndexError instead of returning a response — in the
ac_charge construction loop when the effective charging_power array is
longer than the truncated grid_import array, otherwise in the
grid-import zeroing loop. -/
theorem c10_short_arrays_raise (r : EvccResp) (ev : Option EvoptRequest)
    (tfb h : ℕ) (ts : String)
    (hcond :
      (∃ l, (respOf r).grid_import = some l ∧ l ≠ [] ∧ l.length < horizon_n tfb h) ∨
      ((cpEff (respOf r) (horizon_n tfb h)).length < horizon_n tfb h ∧
        ∃ j, (cpEff (respOf r) (horizon_n tfb h)).length ≤ j ∧ j < horizon_n tfb h ∧
          (giEff (respOf r) (horizon_n tfb h)).getD j 0 ≤ 0)) :
    transformResp r ev tfb h ts =
      .error (if (giEff (respOf r) (horizon_n tfb h)).length <
                  (cpEff (respOf r) (horizon_n tfb h)).length
              then TErr.acLoop else TErr.zeroLoop) := by
  by_cases hlen : (giEff (respOf r) (horizon_n tfb h)).length <
      (cpEff (respOf r) (horizon_n tfb h)).length
  · rw [if_pos hlen]
    apply transformResp_err_eq
    simp only [computeAc]
    rw [acLoopGo_err (giEff (respOf r) (horizon_n tfb h)) _
      (cpEff (respOf r) (horizon_n tfb h)) 0 (Nat.zero_le _) (by omega)]
  · rw [if_neg hlen]
    apply transformResp_err_eq
    have hle : (cpEff (respOf r) (horizon_n tfb h)).length ≤
        (giEff (respOf r) (horizon_n tfb h)).length := Nat.not_lt.mp hlen
    obtain ⟨acl, hacl, haclLen, -⟩ := acLoopGo_ok (giEff (respOf r) (horizon_n tfb h))
      (cmaxOf ev (cpEff (respOf r) (horizon_n tfb h)))
      (cpEff (respOf r) (horizon_n tfb h)) 0 (by omega)
    simp only [computeAc]
    rw [hacl]
    by_cases hgin : (giEff (respOf r) (horizon_n tfb h)).length < horizon_n tfb h
    · exact zeroGo_err_read _ (horizon_n tfb h) 0 acl (by omega) (by omega)
    · rcases hcond with ⟨l, hsome, hne, hlt⟩ | ⟨hcpn, j, hj1, hj2, hj3⟩
      · exfalso
        have : (giEff (respOf r) (horizon_n tfb h)).length < horizon_n tfb h := by
          rw [giEff, hsome, effList_ne_nil l hne, List.length_take]
          omega
        omega
      · exact zeroGo_err_write _ (horizon_n tfb h) 0 acl (by omega)
          ⟨j, Nat.zero_le _, by omega, hj3, by omega⟩

/-- Claim C10 (counterexample): with grid_import = [1] (non-empty,
shorter than the horizon 48) and no batteries in the response, the
IndexError is raised in the ac_charge construction loop, not in the
grid-import zeroing loop as the claim states. -/
theorem c10_counterexample :
    (respOf respShortGrid).grid_import = some [1] ∧
    ((1 : ℚ) :: []) ≠ [] ∧
    ([(1 : ℚ)]).length < horizon_n 3600 0 ∧
    transformResp respShortGrid none 3600 0 tsW = .error TErr.acLoop ∧
    TErr.acLoop ≠ TErr.zeroLoop := by
  refine ⟨rfl, by simp, by simp [horizon_n], ?_, by decide⟩
  have hcp : cpEff (respOf respShortGrid) (horizon_n 3600 0) = List.replicate 48 0 := by
    simp [cpEff, firstBatt, respOf, respShortGrid, emptyPayload, effList_none, horizon_n]
  have hgi : giEff (respOf respShortGrid) (horizon_n 3600 0) = [1] := by
    simp [giEff, respOf, respShortGrid, emptyPayload, effList, horizon_n]
  apply transformResp_err_eq
  rw [hcp, hgi]
  simp only [computeAc]
  rw [acLoopGo_err [1] _ (List.replicate 48 0) 0 (by simp) (by simp)]

/-- Witness for c10_short_arrays_raise: a 1-entry charging_power with a
48-entry non-positive grid_import raises in the zeroing loop. -/
theorem c10_witness :
    transformResp respShortCp none 3600 0 tsW = .error TErr.zeroLoop := by
  have hcpE : cpEff (respOf respShortCp) (horizon_n 3600 0) = [5] := by
    simp [cpEff, firstBatt, respOf, respShortCp, emptyPayload, effList, horizon_n]
  have hgiE : giEff (respOf respShortCp) (horizon_n 3600 0)
      = List.replicate 48 (-1) := by
    simp [giEff, respOf, respShortCp, emptyPayload, effList, horizon_n,
      List.take_replicate]
  have h := c10_short_arrays_raise respShortCp none 3600 0 tsW
    (Or.inr ⟨by rw [hcpE]; simp [horizon_n], 1, by rw [hcpE]; simp,
      by simp [horizon_n],
      by rw [hgiE, getD_replicate_lt 48 (-1) 1 (by norm_num)]; norm_num⟩)
  rw [hcpE, hgiE] at h
  rw [if_neg (by simp)] at h
  exact h

end EosConnect
